import Mathlib

/-!
Verification of the smollm command-line agent (`functions.py`): a shallow
embedding of its tool catalog, confirmation gate, conversation trimming and
tool-call dispatch loop, together with theorems about their behaviour.

Filesystem and process effects are modelled explicitly: a filesystem value
`FS` is threaded through the file tools, and `subprocess.run` outcomes are
passed to `run_shell_command` as an explicit argument.  Python exceptions
are modelled by the `Exc` type; a tool that would let an exception escape
returns `Except.error`, so "no exception propagates" is a provable statement
rather than a typing artifact.
-/

deriving instance DecidableEq for Except

namespace Smollm

/-- Kinds of operating-system errors raised by filesystem primitives; in
Python these are the subclasses of `OSError` (and `IOError` is an alias of
`OSError`). -/
inductive OSErrKind where
  | fileExists
  | fileNotFound
  | permission
  | isADirectory
  | generic
  deriving DecidableEq

/-- A Python exception: either an `OSError` of some kind (all caught by an
`except IOError` clause) or some other exception (caught only by a bare
`except Exception`). -/
inductive Exc where
  | osError (kind : OSErrKind)
  | other (msg : String)
  deriving DecidableEq

/-- Whether an `except IOError` clause catches the exception: `IOError` is an
alias of `OSError`, so it catches exactly the `osError` values. -/
def isIOError : Exc → Bool
  | .osError _ => true
  | .other _ => false

/-- Whether an `except FileExistsError` clause catches the exception. -/
def isFileExistsError : Exc → Bool
  | .osError .fileExists => true
  | _ => false

/-- The text `str(e)` of an exception, as interpolated into the strings the
tools print or return. -/
def excMessage : Exc → String
  | .osError .fileExists => "file exists"
  | .osError .fileNotFound => "file not found"
  | .osError .permission => "permission denied"
  | .osError .isADirectory => "is a directory"
  | .osError .generic => "os error"
  | .other msg => msg

/-- The filesystem model: an association list from file paths to contents
(first binding wins), an association list from directory paths to the child
entries reported by `Path.iterdir`, and the set of paths the process may
read but not write (on which `write_text` raises `PermissionError`). -/
structure FS where
  files : List (String × String)
  dirs : List (String × List String)
  readonly : List String
  deriving DecidableEq

/-- First-match association-list lookup for file contents. -/
def lookupFile : List (String × String) → String → Option String
  | [], _ => none
  | (q, v) :: rest, p => if q = p then some v else lookupFile rest p

/-- First-match association-list lookup for directory entries. -/
def lookupDir : List (String × List String) → String → Option (List String)
  | [], _ => none
  | (q, v) :: rest, p => if q = p then some v else lookupDir rest p

/-- Whether `p` names an existing file. -/
def FS.isFile (fs : FS) (p : String) : Bool := (lookupFile fs.files p).isSome

/-- Whether `p` names an existing directory. -/
def FS.isDir (fs : FS) (p : String) : Bool := (lookupDir fs.dirs p).isSome

/-- The parent of a path (`Path.parent`): everything before the final slash;
a bare name is given parent `""`. -/
def parentDir (p : String) : String :=
  String.mk (((p.data.reverse.dropWhile (fun c => !(c == '/'))).drop 1).reverse)

/-- Models `Path.touch()` with its default `exist_ok=True`: touching an existing
file succeeds and leaves it in place; a new empty file is created when the
parent directory exists; otherwise `FileNotFoundError` is raised. -/
def FS.touch (fs : FS) (p : String) : Except Exc FS :=
  if fs.isFile p then .ok fs
  else if fs.isDir (parentDir p) then
    .ok { fs with files := (p, "") :: fs.files }
  else .error (.osError .fileNotFound)

/-- Models `Path.read_text()`: the contents of an existing file; raises
`IsADirectoryError` on a directory and `FileNotFoundError` otherwise. -/
def FS.readText (fs : FS) (p : String) : Except Exc String :=
  match lookupFile fs.files p with
  | some c => .ok c
  | none =>
    if fs.isDir p then .error (.osError .isADirectory)
    else .error (.osError .fileNotFound)

/-- Models `Path.write_text(c)`: raises `PermissionError` on a path the
process may not write, overwrites an existing file, creates a new file when
the parent directory exists, and raises `FileNotFoundError` otherwise. -/
def FS.writeText (fs : FS) (p c : String) : Except Exc FS :=
  if fs.readonly.contains p then .error (.osError .permission)
  else if fs.isFile p || fs.isDir (parentDir p) then
    .ok { fs with files := (p, c) :: fs.files.filter (fun e => decide (e.1 ≠ p)) }
  else .error (.osError .fileNotFound)

/-- Models `os.path.exists`: true for an existing file or directory. -/
def FS.pathExists (fs : FS) (p : String) : Bool := fs.isFile p || fs.isDir p

/-- Models `os.remove`: deletes a file; raises `IsADirectoryError` on a directory
and `FileNotFoundError` on a missing path. -/
def FS.remove (fs : FS) (p : String) : Except Exc FS :=
  if fs.isFile p then
    .ok { fs with files := fs.files.filter (fun e => decide (e.1 ≠ p)) }
  else if fs.isDir p then .error (.osError .isADirectory)
  else .error (.osError .fileNotFound)

/-- Models `Path.iterdir()`: the children of an existing directory; raises
`NotADirectoryError` (modelled by the `generic` kind) on a file and
`FileNotFoundError` on a missing path. -/
def FS.iterdir (fs : FS) (d : String) : Except Exc (List String) :=
  match lookupDir fs.dirs d with
  | some children => .ok children
  | none =>
    if fs.isFile d then .error (.osError .generic)
    else .error (.osError .fileNotFound)

/-- Python whitespace as removed by `str.strip()`. -/
def isPySpace (c : Char) : Bool :=
  c == ' ' || c == '\t' || c == '\n' || c == '\r' || c == '\x0b' || c == '\x0c'

/-- Models `str.strip()`: removes leading and trailing whitespace. -/
def pyStrip (s : String) : String :=
  String.mk (((s.data.dropWhile isPySpace).reverse.dropWhile isPySpace).reverse)

/-- Whether `pat` is an initial segment of `s`, character by character. -/
def startsWithChars : List Char → List Char → Bool
  | [], _ => true
  | _ :: _, [] => false
  | a :: pat, b :: s => a == b && startsWithChars pat s

/-- Python substring containment `pat in s` on character lists: the empty
pattern occurs in every string. -/
def occursList (pat : List Char) : List Char → Bool
  | [] => startsWithChars pat []
  | c :: rest => startsWithChars pat (c :: rest) || occursList pat rest

/-- Python substring containment `pat in s`. -/
def occursIn (pat s : String) : Bool := occursList pat.data s.data

/-- The scan of `str.replace` for a nonempty pattern: left to right; at a
match emit the replacement and skip the matched text, otherwise keep one
character.  The fuel argument only bounds the recursion; `s.length` fuel is
always enough, since every step consumes at least one character. -/
def replaceListAux (pat rep : List Char) : Nat → List Char → List Char
  | _, [] => []
  | 0, s => s
  | fuel + 1, c :: rest =>
    if startsWithChars pat (c :: rest) then
      rep ++ replaceListAux pat rep fuel (rest.drop (pat.length - 1))
    else
      c :: replaceListAux pat rep fuel rest

/-- The behaviour of `str.replace` with an empty pattern: the replacement is
inserted before every character and once at the end. -/
def replaceEmptyPat (rep : List Char) : List Char → List Char
  | [] => rep
  | c :: rest => rep ++ c :: replaceEmptyPat rep rest

/-- Python `str.replace(old, new)`: literal (non-regex) replacement of every
non-overlapping occurrence of `old` by `new`, scanning left to right. -/
def pyReplace (s old new : String) : String :=
  match old.data with
  | [] => String.mk (replaceEmptyPat new.data s.data)
  | _ :: _ => String.mk (replaceListAux old.data new.data s.data.length s.data)

/-- The tool `create_file`: touches `file_path/file_name`; returns `True` on success
and `False` when a `FileExistsError` or `IOError` is caught; any other
exception would propagate. -/
def create_file (fs : FS) (file_path file_name : String) : Except Exc (Bool × FS) :=
  match fs.touch (file_path ++ "/" ++ file_name) with
  | .ok fs' => .ok (true, fs')
  | .error e =>
    if isFileExistsError e then .ok (false, fs)
    else if isIOError e then .ok (false, fs)
    else .error e

/-- The tool `list_files_in_directory`: appends the children of `directory` to an
initially empty list, one by one; a caught `IOError` yields the empty
list. -/
def list_files_in_directory (fs : FS) (directory : String) : Except Exc (List String) :=
  match fs.iterdir directory with
  | .ok children => .ok (children.foldl (fun arr child => arr ++ [child]) [])
  | .error e => if isIOError e then .ok [] else .error e

/-- The tool `read_file`: the full contents of the file; a caught `IOError` yields
`""`. -/
def read_file (fs : FS) (file_path : String) : Except Exc String :=
  match fs.readText file_path with
  | .ok file_contents => .ok file_contents
  | .error e => if isIOError e then .ok "" else .error e

/-- The tool `write_in_file`: writes `content` to the file; `True` on success, and a
caught `IOError` yields `False`. -/
def write_in_file (fs : FS) (file_path content : String) : Except Exc (Bool × FS) :=
  match fs.writeText file_path content with
  | .ok fs' => .ok (true, fs')
  | .error e => if isIOError e then .ok (false, fs) else .error e

/-- The tool `update_in_file`: reads the file, replaces every occurrence of `old`
with `new`, and writes the result back; a caught `IOError` in either step
yields `False`. -/
def update_in_file (fs : FS) (file_path old new : String) : Except Exc (Bool × FS) :=
  match fs.readText file_path with
  | .ok contents =>
    match fs.writeText file_path (pyReplace contents old new) with
    | .ok fs' => .ok (true, fs')
    | .error e => if isIOError e then .ok (false, fs) else .error e
  | .error e => if isIOError e then .ok (false, fs) else .error e

/-- The tool `delete_file`: removes the path when `os.path.exists` reports it
(`True`), reports `False` when missing, and converts a caught `IOError`
from `os.remove` to `False`. -/
def delete_file (fs : FS) (file_path : String) : Except Exc (Bool × FS) :=
  if fs.pathExists file_path then
    match fs.remove file_path with
    | .ok fs' => .ok (true, fs')
    | .error e => if isIOError e then .ok (false, fs) else .error e
  else .ok (false, fs)

/-- The outcome of `subprocess.run(command, shell=True, capture_output=True,
text=True)`: the exit code and the two separately captured streams. -/
structure ProcResult where
  returncode : Int
  stdout : String
  stderr : String
  deriving DecidableEq

/-- The tool `run_shell_command`, applied to the outcome of spawning the command
(either an exception from `subprocess.run` or a completed process): the
trimmed stdout on exit code 0, otherwise a formatted error string embedding
the exit code and the trimmed stderr; the bare `except Exception` converts
any spawn exception to a message string. -/
def run_shell_command (spawn : Except Exc ProcResult) : String :=
  match spawn with
  | .ok result =>
    if result.returncode == 0 then pyStrip result.stdout
    else "Error (Exit Code " ++ toString result.returncode ++ "):\n" ++ pyStrip result.stderr
  | .error e => "An error occurred: " ++ excMessage e

/-- The tool `git_status`: `run_shell_command("git status")`, applied to the spawn
outcome of that command. -/
def git_status (spawn : Except Exc ProcResult) : String := run_shell_command spawn

/-- The tool `git_diff`: `run_shell_command("git diff")`, applied to the spawn outcome
of that command. -/
def git_diff (spawn : Except Exc ProcResult) : String := run_shell_command spawn

/-- The tool `git_commit`: runs `git add .` then `git commit -m "<message>"` and
concatenates the two outputs. -/
def git_commit (addSpawn commitSpawn : Except Exc ProcResult) : String :=
  "Add: " ++ run_shell_command addSpawn ++ "\nCommit: " ++ run_shell_command commitSpawn

/-- The gate `confirm_action`: the operator's input line is passed explicitly in
place of `input()`; returns whether the stripped line is a member of the
set containing `"y"` and `"yes"`. -/
def confirm_action (tool_name : String) (arguments : List (String × String))
    (answer : String) : Bool :=
  let a := pyStrip answer
  a == "y" || a == "yes"

/-- A chat message as built by the loop: a role, a content text, and, for
tool results, the tool's name. -/
structure Message where
  role : String
  content : String
  tool_name : Option String
  deriving DecidableEq

/-- The `function` field of a model-emitted tool call: a name and an
argument mapping. -/
structure ToolFunction where
  name : String
  arguments : List (String × String)
  deriving DecidableEq

/-- A tool call as carried by one model response. -/
structure ToolCall where
  function : ToolFunction
  deriving DecidableEq

/-- The keys of the `available_functions` dictionary. -/
def availableNames : List String :=
  ["create_file", "list_files_in_directory", "read_file", "write_in_file",
   "update_in_file", "delete_file", "run_shell_command", "git_status",
   "git_diff", "git_commit"]

/-- The `sensitive_tools` set. -/
def sensitiveNames : List String :=
  ["create_file", "write_in_file", "update_in_file", "delete_file",
   "run_shell_command", "git_commit"]

/-- A tool-role message as appended by the dispatch loop. -/
def mkToolMessage (name content : String) : Message :=
  { role := "tool", content := content, tool_name := some name }

/-- The context-management step before each inner model round: when more
than 20 messages are held, keep the first (the system prompt) plus the most
recent 20. -/
def trimMessages (ms : List Message) : List Message :=
  if 20 < ms.length then ms.take 1 ++ ms.drop (ms.length - 20) else ms

/-- The body of the dispatch loop `for tc in response.message.tool_calls`,
threading an external world `W` through the two effectful steps: `confirm`
models `confirm_action`'s blocking read of the operator's answer, and
`execTool` models executing the named tool and stringifying its result.
A call whose name is not a key of `available_functions` is skipped
silently; a denied sensitive call appends the "Skipped by user." tool
message; otherwise the call is executed and its stringified result
appended. -/
def dispatchToolCalls {W : Type} (confirm : W → ToolCall → Bool × W)
    (execTool : W → ToolCall → String × W) :
    W → List Message → List ToolCall → List Message × W
  | st, msgs, [] => (msgs, st)
  | st, msgs, tc :: rest =>
    if availableNames.contains tc.function.name then
      if sensitiveNames.contains tc.function.name then
        let res := confirm st tc
        if res.1 then
          let er := execTool res.2 tc
          dispatchToolCalls confirm execTool er.2
            (msgs ++ [mkToolMessage tc.function.name er.1]) rest
        else
          dispatchToolCalls confirm execTool res.2
            (msgs ++ [mkToolMessage tc.function.name "Skipped by user."]) rest
      else
        let er := execTool st tc
        dispatchToolCalls confirm execTool er.2
          (msgs ++ [mkToolMessage tc.function.name er.1]) rest
    else
      dispatchToolCalls confirm execTool st msgs rest

/-- The per-call outcome the specification prescribes for one recognized
tool call at operator/executor state `s` (the specification side, stated
from the spec's words, to be compared with `dispatchToolCalls`): a
sensitive call is put to the confirmation gate — on denial the single
"Skipped by user." message is produced and the tool does not run, on
approval the tool runs at the post-confirmation state and its stringified
result is the message — and a non-sensitive call runs directly. -/
def toolTurnStep {W : Type} (confirm : W → ToolCall → Bool × W)
    (execTool : W → ToolCall → String × W) (s : W) (tc : ToolCall) : Message × W :=
  if sensitiveNames.contains tc.function.name then
    if (confirm s tc).1 then
      (mkToolMessage tc.function.name (execTool (confirm s tc).2 tc).1,
        (execTool (confirm s tc).2 tc).2)
    else
      (mkToolMessage tc.function.name "Skipped by user.", (confirm s tc).2)
  else
    (mkToolMessage tc.function.name (execTool s tc).1, (execTool s tc).2)

/-- The message sequence the specification prescribes for a whole list of
recognized calls: one message per call, the state threading left to
right. -/
def toolTurnTrace {W : Type} (confirm : W → ToolCall → Bool × W)
    (execTool : W → ToolCall → String × W) : W → List ToolCall → List Message × W
  | st, [] => ([], st)
  | st, tc :: rest =>
    ((toolTurnStep confirm execTool st tc).1 ::
        (toolTurnTrace confirm execTool (toolTurnStep confirm execTool st tc).2 rest).1,
      (toolTurnTrace confirm execTool (toolTurnStep confirm execTool st tc).2 rest).2)

/-! ### Helper lemmas -/

theorem touch_error_isIOError {fs : FS} {p : String} {e : Exc}
    (h : fs.touch p = .error e) : isIOError e = true := by
  unfold FS.touch at h
  split at h
  · cases h
  · split at h
    · cases h
    · cases h
      rfl

theorem readText_error_isIOError {fs : FS} {p : String} {e : Exc}
    (h : fs.readText p = .error e) : isIOError e = true := by
  unfold FS.readText at h
  split at h
  · cases h
  · split at h
    · cases h
      rfl
    · cases h
      rfl

theorem writeText_error_isIOError {fs : FS} {p c : String} {e : Exc}
    (h : fs.writeText p c = .error e) : isIOError e = true := by
  unfold FS.writeText at h
  split at h
  · cases h
    rfl
  · split at h
    · cases h
    · cases h
      rfl

theorem iterdir_error_isIOError {fs : FS} {d : String} {e : Exc}
    (h : fs.iterdir d = .error e) : isIOError e = true := by
  unfold FS.iterdir at h
  split at h
  · cases h
  · split at h
    · cases h
      rfl
    · cases h
      rfl

theorem remove_error_isIOError {fs : FS} {p : String} {e : Exc}
    (h : fs.remove p = .error e) : isIOError e = true := by
  unfold FS.remove at h
  split at h
  · cases h
  · split at h
    · cases h
      rfl
    · cases h
      rfl

theorem filter_filter_self {α : Type} (f : α → Bool) (l : List α) :
    (l.filter f).filter f = l.filter f := by
  induction l with
  | nil => rfl
  | cons a t ih =>
    by_cases h : f a
    · simp [List.filter_cons, h, ih]
    · simp [List.filter_cons, h, ih]

theorem startsWithChars_append (pat ys : List Char) :
    startsWithChars pat (pat ++ ys) = true := by
  induction pat with
  | nil => rfl
  | cons a t ih => simp [startsWithChars, ih]

theorem occursList_append_middle (pat ys xs : List Char) :
    occursList pat (xs ++ (pat ++ ys)) = true := by
  induction xs with
  | nil =>
    rw [List.nil_append]
    cases hp : pat ++ ys with
    | nil =>
      rcases List.append_eq_nil.mp hp with ⟨h1, h2⟩
      subst h1
      subst h2
      rfl
    | cons c rest =>
      have h := startsWithChars_append pat ys
      rw [hp] at h
      simp [occursList, h]
  | cons x xs ih =>
    rw [List.cons_append]
    simp [occursList, ih]

theorem replaceListAux_of_not_occurs (pat rep : List Char) :
    ∀ (s : List Char) (fuel : Nat), occursList pat s = false →
      replaceListAux pat rep fuel s = s := by
  intro s
  induction s with
  | nil =>
    intro fuel _
    cases fuel <;> rfl
  | cons c rest ih =>
    intro fuel h
    rw [occursList] at h
    simp only [Bool.or_eq_false_iff] at h
    obtain ⟨h1, h2⟩ := h
    cases fuel with
    | zero => rfl
    | succ f =>
      rw [replaceListAux, if_neg (by simp [h1]), ih f h2]

theorem pyReplace_of_not_occurs {s old new : String}
    (h : occursIn old s = false) : pyReplace s old new = s := by
  unfold occursIn at h
  unfold pyReplace
  split
  case h_1 heq =>
    exfalso
    rw [heq] at h
    have : occursList [] s.data = true := by
      cases s.data
      · rfl
      · simp [occursList, startsWithChars]
    rw [this] at h
    cases h
  case h_2 a t heq =>
    rw [replaceListAux_of_not_occurs old.data new.data s.data s.data.length h]

/-! ### Claim theorems -/

/-- C4: the gate `confirm_action` returns `true` exactly when the operator's
input line, stripped of surrounding whitespace, is the case-sensitive `"y"`
or `"yes"`; every other line, the empty line and `"Y"` included, denies. -/
theorem confirm_action_yes_iff (tool_name : String)
    (arguments : List (String × String)) (answer : String) :
    (confirm_action tool_name arguments answer = true ↔
      pyStrip answer = "y" ∨ pyStrip answer = "yes") ∧
    confirm_action tool_name arguments "" = false ∧
    confirm_action tool_name arguments "Y" = false := by
  refine ⟨?_, rfl, rfl⟩
  constructor
  · intro h
    unfold confirm_action at h
    simpa using h
  · intro h
    unfold confirm_action
    rcases h with h | h <;> simp [h]

/-- C3: whenever more than 20 messages are held, trimming yields exactly 21
messages: the original first message (the system prompt, still at index 0)
followed by the most recent 20 messages in their original order. -/
theorem trimMessages_bound (ms : List Message) (h : 20 < ms.length) :
    (trimMessages ms).length = 21 ∧
    ∃ a, ms.take 1 = [a] ∧ trimMessages ms = a :: ms.drop (ms.length - 20) := by
  cases ms with
  | nil => simp at h
  | cons a t =>
    have htrim : trimMessages (a :: t) = a :: (a :: t).drop ((a :: t).length - 20) := by
      unfold trimMessages
      rw [if_pos h]
      simp
    refine ⟨?_, a, by simp, htrim⟩
    rw [htrim]
    simp only [List.length_cons, List.length_drop] at h ⊢
    omega

/-- Witness for C3: a concrete conversation of 25 messages trims to 21. -/
theorem trimMessages_bound_witness :
    20 < (List.replicate 25 (Message.mk "user" "hi" none)).length ∧
    (trimMessages (List.replicate 25 (Message.mk "user" "hi" none))).length = 21 :=
  ⟨by decide, (trimMessages_bound (List.replicate 25 (Message.mk "user" "hi" none)) (by decide)).1⟩

/-- C5: for a spawned process exiting with a nonzero code,
`run_shell_command` returns (rather than raising) a formatted error string,
in which the numeric exit code and the trimmed captured stderr both occur as
substrings; for a zero exit code it returns the trimmed captured stdout. -/
theorem run_shell_command_exit_spec (r : ProcResult) :
    (r.returncode ≠ 0 →
      run_shell_command (Except.ok r) =
        "Error (Exit Code " ++ toString r.returncode ++ "):\n" ++ pyStrip r.stderr ∧
      occursIn (toString r.returncode) (run_shell_command (Except.ok r)) = true ∧
      occursIn (pyStrip r.stderr) (run_shell_command (Except.ok r)) = true) ∧
    (r.returncode = 0 → run_shell_command (Except.ok r) = pyStrip r.stdout) := by
  constructor
  · intro h
    have hb : (r.returncode == 0) = false := by
      simp [h]
    have heq : run_shell_command (Except.ok r) =
        "Error (Exit Code " ++ toString r.returncode ++ "):\n" ++ pyStrip r.stderr := by
      unfold run_shell_command
      simp [hb]
    refine ⟨heq, ?_, ?_⟩
    · rw [heq]
      unfold occursIn
      have hd : ("Error (Exit Code " ++ toString r.returncode ++ "):\n" ++ pyStrip r.stderr).data
          = "Error (Exit Code ".data ++
            ((toString r.returncode).data ++ ("):\n".data ++ (pyStrip r.stderr).data)) := by
        simp
      rw [hd]
      exact occursList_append_middle (toString r.returncode).data
        ("):\n".data ++ (pyStrip r.stderr).data) "Error (Exit Code ".data
    · rw [heq]
      unfold occursIn
      have hd : ("Error (Exit Code " ++ toString r.returncode ++ "):\n" ++ pyStrip r.stderr).data
          = ("Error (Exit Code ".data ++ (toString r.returncode).data ++ "):\n".data) ++
            ((pyStrip r.stderr).data ++ []) := by
        simp
      rw [hd]
      exact occursList_append_middle (pyStrip r.stderr).data []
        ("Error (Exit Code ".data ++ (toString r.returncode).data ++ "):\n".data)
  · intro h
    unfold run_shell_command
    simp [h]

/-- Witness for C5: a process exiting 3 with stderr `" err "` and one exiting
0 with stdout `" out "`. -/
theorem run_shell_command_exit_spec_witness :
    (run_shell_command (Except.ok (ProcResult.mk 3 "x" " err ")) =
        "Error (Exit Code " ++ toString (3 : Int) ++ "):\n" ++ pyStrip " err " ∧
      occursIn (toString (3 : Int))
        (run_shell_command (Except.ok (ProcResult.mk 3 "x" " err "))) = true ∧
      occursIn (pyStrip " err ")
        (run_shell_command (Except.ok (ProcResult.mk 3 "x" " err "))) = true) ∧
    run_shell_command (Except.ok (ProcResult.mk 0 " out " "e")) = pyStrip " out " :=
  ⟨(run_shell_command_exit_spec (ProcResult.mk 3 "x" " err ")).1 (by decide),
   (run_shell_command_exit_spec (ProcResult.mk 0 " out " "e")).2 rfl⟩

/-- C6 counterexample: a process that exits 0 with stdout `"out"` and
nonempty stderr `"boom"`: the returned string is exactly the trimmed stdout
and the stderr text does not occur in it, so the returned string does not
reflect both captured streams. -/
theorem run_shell_command_not_both_streams :
    run_shell_command (Except.ok (ProcResult.mk 0 "out" "boom")) = "out" ∧
    occursIn "boom" (run_shell_command (Except.ok (ProcResult.mk 0 "out" "boom"))) = false := by
  constructor
  · rfl
  · decide

/-- C6 (amended): `run_shell_command` captures stdout, stderr and the exit
code of the spawned process, and the returned string reflects the single
stream selected by the exit code: the trimmed stdout when the exit code is
zero, and otherwise a formatted error string carrying the exit code and the
trimmed stderr. -/
theorem run_shell_command_selected_stream (r : ProcResult) :
    (r.returncode = 0 → run_shell_command (Except.ok r) = pyStrip r.stdout) ∧
    (r.returncode ≠ 0 →
      run_shell_command (Except.ok r) =
        "Error (Exit Code " ++ toString r.returncode ++ "):\n" ++ pyStrip r.stderr) := by
  constructor
  · intro h
    unfold run_shell_command
    simp [h]
  · intro h
    have hb : (r.returncode == 0) = false := by
      simp [h]
    unfold run_shell_command
    simp [hb]

/-- Witness for the amended C6, at exit codes 0 and 2. -/
theorem run_shell_command_selected_stream_witness :
    run_shell_command (Except.ok (ProcResult.mk 0 "hello" "warn")) = pyStrip "hello" ∧
    run_shell_command (Except.ok (ProcResult.mk 2 "hello" "warn")) =
      "Error (Exit Code " ++ toString (2 : Int) ++ "):\n" ++ pyStrip "warn" :=
  ⟨(run_shell_command_selected_stream (ProcResult.mk 0 "hello" "warn")).1 rfl,
   (run_shell_command_selected_stream (ProcResult.mk 2 "hello" "warn")).2 (by decide)⟩

/-- C9: `list_files_in_directory` returns the empty list both for an
existing empty directory (the normal path) and for a nonexistent directory
(the caught error path); in neither case does it raise or return a distinct
failure value. -/
theorem list_files_empty_or_missing (fs : FS) (d : String) :
    (lookupDir fs.dirs d = some [] → list_files_in_directory fs d = Except.ok []) ∧
    (lookupDir fs.dirs d = none → list_files_in_directory fs d = Except.ok []) := by
  constructor
  · intro h
    unfold list_files_in_directory FS.iterdir
    rw [h]
    rfl
  · intro h
    unfold list_files_in_directory FS.iterdir
    rw [h]
    by_cases hf : fs.isFile d
    · simp [hf, isIOError]
    · simp [hf, isIOError]

/-- Witness for C9: a filesystem holding one empty directory `"empty"`. -/
theorem list_files_empty_or_missing_witness :
    list_files_in_directory (FS.mk [] [("empty", [])] []) "empty" = Except.ok [] ∧
    list_files_in_directory (FS.mk [] [("empty", [])] []) "missing" = Except.ok [] :=
  ⟨(list_files_empty_or_missing (FS.mk [] [("empty", [])] []) "empty").1 (by decide),
   (list_files_empty_or_missing (FS.mk [] [("empty", [])] []) "missing").2 (by decide)⟩

/-- C10: `Path.touch()` is called with its default `exist_ok=True`, so
touching an existing file succeeds: `create_file` returns `True` (with the
filesystem unchanged) whenever the target file already exists, and the
`FileExistsError` handler is unreachable because the modelled `touch` never
raises `FileExistsError`. -/
theorem create_file_existing_true (fs : FS) (file_path file_name : String)
    (h : fs.isFile (file_path ++ "/" ++ file_name) = true) :
    create_file fs file_path file_name = Except.ok (true, fs) ∧
    ∀ (fs' : FS) (p : String),
      fs'.touch p ≠ Except.error (Exc.osError OSErrKind.fileExists) := by
  constructor
  · unfold create_file FS.touch
    simp [h]
  · intro fs' p hcontra
    unfold FS.touch at hcontra
    split at hcontra
    · cases hcontra
    · split at hcontra
      · cases hcontra
      · simp at hcontra

/-- Witness for C10: creating `"d/f"` over an existing file `"d/f"`. -/
theorem create_file_existing_true_witness :
    create_file (FS.mk [("d/f", "x")] [("d", ["d/f"])] []) "d" "f"
      = Except.ok (true, FS.mk [("d/f", "x")] [("d", ["d/f"])] []) :=
  (create_file_existing_true (FS.mk [("d/f", "x")] [("d", ["d/f"])] []) "d" "f" (by decide)).1

/-- C8: a successful `write_in_file p c` followed by `read_file p` on the
resulting filesystem returns exactly the written string `c`. -/
theorem write_read_roundtrip (fs fs' : FS) (p c : String)
    (h : write_in_file fs p c = Except.ok (true, fs')) :
    read_file fs' p = Except.ok c := by
  unfold write_in_file at h
  cases hw : fs.writeText p c with
  | error e =>
    rw [hw] at h
    by_cases hio : isIOError e
    · simp [hio] at h
    · simp [hio] at h
  | ok fsw =>
    rw [hw] at h
    have hfs : fsw = fs' := by
      simpa using h
    subst hfs
    unfold FS.writeText at hw
    split at hw
    · cases hw
    · split at hw
      · cases hw
        unfold read_file FS.readText
        simp [lookupFile]
      · cases hw

/-- Witness for C8: writing `"hello"` to `"d/f"` and reading it back. -/
theorem write_read_roundtrip_witness :
    read_file (FS.mk [("d/f", "hello")] [("d", [])] []) "d/f" = Except.ok "hello" :=
  write_read_roundtrip (FS.mk [] [("d", [])] []) (FS.mk [("d/f", "hello")] [("d", [])] [])
    "d/f" "hello" (by decide)

/-- C7: `update_in_file` is a literal replace-all followed by a rewrite of
the file, so once `old` no longer occurs in the file after a first
successful call, a second call with the same `(old, new)` succeeds and
leaves the whole filesystem unchanged. -/
theorem update_in_file_idempotent (fs fs₁ : FS) (p old new c₁ : String)
    (h1 : update_in_file fs p old new = Except.ok (true, fs₁))
    (h2 : fs₁.readText p = Except.ok c₁)
    (h3 : occursIn old c₁ = false) :
    update_in_file fs₁ p old new = Except.ok (true, fs₁) := by
  unfold update_in_file at h1
  cases hr : fs.readText p with
  | error e =>
    rw [hr] at h1
    by_cases hio : isIOError e
    · simp [hio] at h1
    · simp [hio] at h1
  | ok c₀ =>
    rw [hr] at h1
    simp only [] at h1
    cases hw : fs.writeText p (pyReplace c₀ old new) with
    | error e =>
      simp only [hw] at h1
      by_cases hio : isIOError e
      · simp [hio] at h1
      · simp [hio] at h1
    | ok fsw =>
      simp only [hw] at h1
      have hfs : fsw = fs₁ := by
        simpa using h1
      subst hfs
      cases hro : fs.readonly.contains p with
      | true =>
        unfold FS.writeText at hw
        rw [hro] at hw
        simp at hw
      | false =>
        unfold FS.writeText at hw
        rw [hro] at hw
        simp only [Bool.false_eq_true, if_false] at hw
        split at hw
        · injection hw with hrec
          have hfiles : fsw.files = (p, pyReplace c₀ old new) ::
              fs.files.filter (fun e => decide (e.1 ≠ p)) := by
            rw [← hrec]
          have hro2 : fsw.readonly.contains p = false := by
            rw [← hrec]
            exact hro
          have hread : fsw.readText p = Except.ok (pyReplace c₀ old new) := by
            unfold FS.readText
            rw [hfiles]
            simp [lookupFile]
          have hc : pyReplace c₀ old new = c₁ := by
            rw [hread] at h2
            injection h2
          subst hc
          have hrepl : pyReplace (pyReplace c₀ old new) old new = pyReplace c₀ old new :=
            pyReplace_of_not_occurs h3
          have hwrite : fsw.writeText p (pyReplace c₀ old new) = Except.ok fsw := by
            have hfile : fsw.isFile p = true := by
              unfold FS.isFile
              rw [hfiles]
              simp [lookupFile]
            have hsame : (p, pyReplace c₀ old new) ::
                fsw.files.filter (fun e => decide (e.1 ≠ p)) = fsw.files := by
              rw [hfiles]
              simp [List.filter_cons, filter_filter_self]
            unfold FS.writeText
            rw [hro2, hfile]
            rw [if_neg (by simp), if_pos (by simp)]
            rw [hsame]
          simp [update_in_file, hread, hrepl, hwrite]
        · cases hw

/-- Witness for C7: replacing `"ab"` by `"X"` in a file holding `"abab"`,
then repeating the call on the result. -/
theorem update_in_file_idempotent_witness :
    update_in_file (FS.mk [("d/f", "abab")] [("d", ["d/f"])] []) "d/f" "ab" "X"
        = Except.ok (true, FS.mk [("d/f", "XX")] [("d", ["d/f"])] []) ∧
    update_in_file (FS.mk [("d/f", "XX")] [("d", ["d/f"])] []) "d/f" "ab" "X"
        = Except.ok (true, FS.mk [("d/f", "XX")] [("d", ["d/f"])] []) :=
  ⟨by decide,
   update_in_file_idempotent (FS.mk [("d/f", "abab")] [("d", ["d/f"])] [])
     (FS.mk [("d/f", "XX")] [("d", ["d/f"])] []) "d/f" "ab" "X" "XX"
     (by decide) (by decide) (by decide)⟩

/-- C2: every tool of the catalog converts an error raised by its underlying
filesystem or process primitive into its documented failure value (`False`
for create/write/update/delete, the empty list for the directory listing,
`""` for read, a formatted error-message string for shell and git), and no
tool ever lets an exception propagate to the dispatch loop: each file tool
evaluates to `Except.ok`, and the shell-backed tools are total functions
into strings even on a spawn exception. -/
theorem tools_catch_errors_at_boundary (fs : FS)
    (file_path file_name p c old new d : String) (e : Exc)
    (commitSpawn : Except Exc ProcResult) :
    (∃ r, create_file fs file_path file_name = Except.ok r) ∧
    (fs.touch (file_path ++ "/" ++ file_name) = Except.error e →
      create_file fs file_path file_name = Except.ok (false, fs)) ∧
    (∃ r, list_files_in_directory fs d = Except.ok r) ∧
    (fs.iterdir d = Except.error e → list_files_in_directory fs d = Except.ok []) ∧
    (∃ r, read_file fs p = Except.ok r) ∧
    (fs.readText p = Except.error e → read_file fs p = Except.ok "") ∧
    (∃ r, write_in_file fs p c = Except.ok r) ∧
    (fs.writeText p c = Except.error e → write_in_file fs p c = Except.ok (false, fs)) ∧
    (∃ r, update_in_file fs p old new = Except.ok r) ∧
    (fs.readText p = Except.error e → update_in_file fs p old new = Except.ok (false, fs)) ∧
    (∀ c₀, fs.readText p = Except.ok c₀ →
      fs.writeText p (pyReplace c₀ old new) = Except.error e →
      update_in_file fs p old new = Except.ok (false, fs)) ∧
    (∃ r, delete_file fs p = Except.ok r) ∧
    (fs.pathExists p = true → fs.remove p = Except.error e →
      delete_file fs p = Except.ok (false, fs)) ∧
    (run_shell_command (Except.error e) = "An error occurred: " ++ excMessage e) ∧
    (git_status (Except.error e) = "An error occurred: " ++ excMessage e) ∧
    (git_diff (Except.error e) = "An error occurred: " ++ excMessage e) ∧
    (git_commit (Except.error e) commitSpawn =
      "Add: " ++ ("An error occurred: " ++ excMessage e) ++ "\nCommit: " ++
        run_shell_command commitSpawn) := by
  refine ⟨?_, ?_, ?_, ?_, ?_, ?_, ?_, ?_, ?_, ?_, ?_, ?_, ?_, rfl, rfl, rfl, rfl⟩
  · cases ht : fs.touch (file_path ++ "/" ++ file_name) with
    | ok fs' => exact ⟨(true, fs'), by simp [create_file, ht]⟩
    | error e' =>
      refine ⟨(false, fs), ?_⟩
      have hio := touch_error_isIOError ht
      by_cases hfe : isFileExistsError e'
      · simp [create_file, ht, hfe]
      · simp [create_file, ht, hfe, hio]
  · intro h
    have hio := touch_error_isIOError h
    by_cases hfe : isFileExistsError e
    · simp [create_file, h, hfe]
    · simp [create_file, h, hfe, hio]
  · cases hi : fs.iterdir d with
    | ok children =>
      exact ⟨children.foldl (fun arr child => arr ++ [child]) [],
        by simp [list_files_in_directory, hi]⟩
    | error e' =>
      exact ⟨[], by simp [list_files_in_directory, hi, iterdir_error_isIOError hi]⟩
  · intro h
    simp [list_files_in_directory, h, iterdir_error_isIOError h]
  · cases hr : fs.readText p with
    | ok contents => exact ⟨contents, by simp [read_file, hr]⟩
    | error e' => exact ⟨"", by simp [read_file, hr, readText_error_isIOError hr]⟩
  · intro h
    simp [read_file, h, readText_error_isIOError h]
  · cases hw : fs.writeText p c with
    | ok fs' => exact ⟨(true, fs'), by simp [write_in_file, hw]⟩
    | error e' => exact ⟨(false, fs), by simp [write_in_file, hw, writeText_error_isIOError hw]⟩
  · intro h
    simp [write_in_file, h, writeText_error_isIOError h]
  · cases hr : fs.readText p with
    | error e' =>
      exact ⟨(false, fs), by simp [update_in_file, hr, readText_error_isIOError hr]⟩
    | ok c₀ =>
      cases hw : fs.writeText p (pyReplace c₀ old new) with
      | ok fs' => exact ⟨(true, fs'), by simp [update_in_file, hr, hw]⟩
      | error e' =>
        exact ⟨(false, fs), by simp [update_in_file, hr, hw, writeText_error_isIOError hw]⟩
  · intro h
    simp [update_in_file, h, readText_error_isIOError h]
  · intro c₀ hr hw
    simp [update_in_file, hr, hw, writeText_error_isIOError hw]
  · cases hp : fs.pathExists p with
    | true =>
      cases hrm : fs.remove p with
      | ok fs' => exact ⟨(true, fs'), by simp [delete_file, hp, hrm]⟩
      | error e' =>
        exact ⟨(false, fs), by simp [delete_file, hp, hrm, remove_error_isIOError hrm]⟩
    | false => exact ⟨(false, fs), by simp [delete_file, hp]⟩
  · intro hp hrm
    simp [delete_file, hp, hrm, remove_error_isIOError hrm]

/-- Witness for C2: on the empty filesystem every primitive fails with
`FileNotFoundError` and each tool reports its documented failure value; a
read-only file makes the write step of `update_in_file` fail after a
successful read, and a directory path makes `os.remove` fail inside
`delete_file`, both reported as `False`. -/
theorem tools_catch_errors_at_boundary_witness :
    create_file (FS.mk [] [] []) "a" "b" = Except.ok (false, FS.mk [] [] []) ∧
    list_files_in_directory (FS.mk [] [] []) "a" = Except.ok [] ∧
    read_file (FS.mk [] [] []) "a/b" = Except.ok "" ∧
    write_in_file (FS.mk [] [] []) "a/b" "c" = Except.ok (false, FS.mk [] [] []) ∧
    update_in_file (FS.mk [] [] []) "a/b" "o" "n" = Except.ok (false, FS.mk [] [] []) ∧
    update_in_file (FS.mk [("f", "x")] [] ["f"]) "f" "o" "n"
      = Except.ok (false, FS.mk [("f", "x")] [] ["f"]) ∧
    delete_file (FS.mk [] [("d", [])] []) "d" = Except.ok (false, FS.mk [] [("d", [])] []) := by
  have h := tools_catch_errors_at_boundary (FS.mk [] [] []) "a" "b" "a/b" "c" "o" "n" "a"
    (Exc.osError OSErrKind.fileNotFound) (Except.ok (ProcResult.mk 0 "" ""))
  have h2 := tools_catch_errors_at_boundary (FS.mk [("f", "x")] [] ["f"]) "a" "b" "f" "c" "o" "n"
    "a" (Exc.osError OSErrKind.permission) (Except.ok (ProcResult.mk 0 "" ""))
  have h3 := tools_catch_errors_at_boundary (FS.mk [] [("d", [])] []) "a" "b" "d" "c" "o" "n"
    "a" (Exc.osError OSErrKind.isADirectory) (Except.ok (ProcResult.mk 0 "" ""))
  exact ⟨h.2.1 (by decide), h.2.2.2.1 (by decide), h.2.2.2.2.2.1 (by decide),
    h.2.2.2.2.2.2.2.1 (by decide), h.2.2.2.2.2.2.2.2.2.1 (by decide),
    h2.2.2.2.2.2.2.2.2.2.2.1 "x" (by decide) (by decide),
    h3.2.2.2.2.2.2.2.2.2.2.2.2.1 (by decide) (by decide)⟩

/-- C1: over one model turn, the dispatch loop appends to the conversation
exactly one tool-role message per tool call whose name is a key of
`available_functions` and none for an unknown name: the loop equals the
specification trace over the recognized calls, which threads the
operator/executor state left to right and produces, per call, the single
"Skipped by user." message exactly when a sensitive call is denied, the
stringified execution result at the post-confirmation state when it is
approved, and the directly obtained execution result for a non-sensitive
call — all before the next model invocation. -/
theorem dispatch_one_message_per_recognized_call {W : Type}
    (confirm : W → ToolCall → Bool × W) (execTool : W → ToolCall → String × W) :
    ∀ (tcs : List ToolCall) (st : W) (msgs : List Message),
      dispatchToolCalls confirm execTool st msgs tcs =
        (msgs ++ (toolTurnTrace confirm execTool st
            (tcs.filter (fun tc => availableNames.contains tc.function.name))).1,
          (toolTurnTrace confirm execTool st
            (tcs.filter (fun tc => availableNames.contains tc.function.name))).2) ∧
      (toolTurnTrace confirm execTool st
          (tcs.filter (fun tc => availableNames.contains tc.function.name))).1.length =
        (tcs.filter (fun tc => availableNames.contains tc.function.name)).length ∧
      (∀ (s : W) (tc : ToolCall), sensitiveNames.contains tc.function.name = true →
        (confirm s tc).1 = false →
        toolTurnStep confirm execTool s tc =
          (mkToolMessage tc.function.name "Skipped by user.", (confirm s tc).2)) ∧
      (∀ (s : W) (tc : ToolCall), sensitiveNames.contains tc.function.name = true →
        (confirm s tc).1 = true →
        toolTurnStep confirm execTool s tc =
          (mkToolMessage tc.function.name (execTool (confirm s tc).2 tc).1,
            (execTool (confirm s tc).2 tc).2)) ∧
      (∀ (s : W) (tc : ToolCall), sensitiveNames.contains tc.function.name = false →
        toolTurnStep confirm execTool s tc =
          (mkToolMessage tc.function.name (execTool s tc).1, (execTool s tc).2)) := by
  have hden : ∀ (s : W) (tc : ToolCall), sensitiveNames.contains tc.function.name = true →
      (confirm s tc).1 = false →
      toolTurnStep confirm execTool s tc =
        (mkToolMessage tc.function.name "Skipped by user.", (confirm s tc).2) := by
    intro s tc hS hC
    simp only [toolTurnStep, hS, hC]
    simp
  have happ : ∀ (s : W) (tc : ToolCall), sensitiveNames.contains tc.function.name = true →
      (confirm s tc).1 = true →
      toolTurnStep confirm execTool s tc =
        (mkToolMessage tc.function.name (execTool (confirm s tc).2 tc).1,
          (execTool (confirm s tc).2 tc).2) := by
    intro s tc hS hC
    simp only [toolTurnStep, hS, hC]
    simp
  have hnon : ∀ (s : W) (tc : ToolCall), sensitiveNames.contains tc.function.name = false →
      toolTurnStep confirm execTool s tc =
        (mkToolMessage tc.function.name (execTool s tc).1, (execTool s tc).2) := by
    intro s tc hS
    simp only [toolTurnStep, hS]
    simp
  have hlen : ∀ (l : List ToolCall) (s : W),
      (toolTurnTrace confirm execTool s l).1.length = l.length := by
    intro l
    induction l with
    | nil => intro s; rfl
    | cons tc rest ih2 => intro s; simp [toolTurnTrace, ih2]
  have hmain : ∀ (tcs : List ToolCall) (st : W) (msgs : List Message),
      dispatchToolCalls confirm execTool st msgs tcs =
        (msgs ++ (toolTurnTrace confirm execTool st
            (tcs.filter (fun tc => availableNames.contains tc.function.name))).1,
          (toolTurnTrace confirm execTool st
            (tcs.filter (fun tc => availableNames.contains tc.function.name))).2) := by
    intro tcs
    induction tcs with
    | nil =>
      intro st msgs
      simp [dispatchToolCalls, toolTurnTrace]
    | cons tc rest ih =>
      intro st msgs
      by_cases hA : tc.function.name ∈ availableNames
      · have hfc : (tc :: rest).filter (fun tc => availableNames.contains tc.function.name)
            = tc :: rest.filter (fun tc => availableNames.contains tc.function.name) := by
          simp [List.filter_cons, hA]
        rw [hfc]
        by_cases hS : tc.function.name ∈ sensitiveNames
        · have hS' : sensitiveNames.contains tc.function.name = true := by
            simpa using hS
          cases hC : confirm st tc with
          | mk b st₁ =>
            cases b with
            | false =>
              have hstep : toolTurnStep confirm execTool st tc =
                  (mkToolMessage tc.function.name "Skipped by user.", st₁) := by
                have hd := hden st tc hS' (by rw [hC])
                rw [hC] at hd
                simpa using hd
              simp [dispatchToolCalls, toolTurnTrace, hA, hS, hC, hstep, ih]
            | true =>
              have hstep : toolTurnStep confirm execTool st tc =
                  (mkToolMessage tc.function.name (execTool st₁ tc).1,
                    (execTool st₁ tc).2) := by
                have hd := happ st tc hS' (by rw [hC])
                rw [hC] at hd
                simpa using hd
              simp [dispatchToolCalls, toolTurnTrace, hA, hS, hC, hstep, ih]
        · have hS' : sensitiveNames.contains tc.function.name = false := by
            simpa using hS
          have hstep : toolTurnStep confirm execTool st tc =
              (mkToolMessage tc.function.name (execTool st tc).1, (execTool st tc).2) :=
            hnon st tc hS'
          simp [dispatchToolCalls, toolTurnTrace, hA, hS, hstep, ih]
      · have hfc : (tc :: rest).filter (fun tc => availableNames.contains tc.function.name)
            = rest.filter (fun tc => availableNames.contains tc.function.name) := by
          simp [List.filter_cons, hA]
        rw [hfc]
        simp [dispatchToolCalls, hA, ih]
  intro tcs st msgs
  exact ⟨hmain tcs st msgs, hlen _ st, hden, happ, hnon⟩

/-- Witness for C1: a concrete turn over the natural-number state, with an
always-denying operator: a sensitive `delete_file` call yields the skip
message, a non-sensitive `read_file` call yields the executed result at the
threaded state, an unknown name yields nothing; plus an always-approving
operator executing the sensitive call at the post-confirmation state. -/
theorem dispatch_one_message_per_recognized_call_witness :
    toolTurnStep (fun (s : Nat) (_ : ToolCall) => (false, s + 1))
        (fun (s : Nat) (_ : ToolCall) => ("r" ++ toString s, s + 1)) 0
        (ToolCall.mk (ToolFunction.mk "delete_file" []))
      = (mkToolMessage "delete_file" "Skipped by user.", 1) ∧
    toolTurnStep (fun (s : Nat) (_ : ToolCall) => (true, s + 1))
        (fun (s : Nat) (_ : ToolCall) => ("r" ++ toString s, s + 1)) 0
        (ToolCall.mk (ToolFunction.mk "delete_file" []))
      = (mkToolMessage "delete_file" "r1", 2) ∧
    toolTurnStep (fun (s : Nat) (_ : ToolCall) => (false, s + 1))
        (fun (s : Nat) (_ : ToolCall) => ("r" ++ toString s, s + 1)) 5
        (ToolCall.mk (ToolFunction.mk "read_file" []))
      = (mkToolMessage "read_file" "r5", 6) ∧
    dispatchToolCalls (fun (s : Nat) (_ : ToolCall) => (false, s + 1))
        (fun (s : Nat) (_ : ToolCall) => ("r" ++ toString s, s + 1)) 0 []
        [ToolCall.mk (ToolFunction.mk "delete_file" []),
         ToolCall.mk (ToolFunction.mk "read_file" []),
         ToolCall.mk (ToolFunction.mk "unknown_tool" [])]
      = ([mkToolMessage "delete_file" "Skipped by user.", mkToolMessage "read_file" "r1"], 2) := by
  have hdeny := @dispatch_one_message_per_recognized_call Nat
    (fun s _ => (false, s + 1)) (fun s _ => ("r" ++ toString s, s + 1))
  have happr := @dispatch_one_message_per_recognized_call Nat
    (fun s _ => (true, s + 1)) (fun s _ => ("r" ++ toString s, s + 1))
  refine ⟨?_, ?_, ?_, ?_⟩
  · have h := (hdeny [] 0 []).2.2.1 0 (ToolCall.mk (ToolFunction.mk "delete_file" []))
      (by decide) rfl
    exact h.trans (by decide)
  · have h := (happr [] 0 []).2.2.2.1 0 (ToolCall.mk (ToolFunction.mk "delete_file" []))
      (by decide) rfl
    exact h.trans (by decide)
  · have h := (hdeny [] 0 []).2.2.2.2 5 (ToolCall.mk (ToolFunction.mk "read_file" []))
      (by decide)
    exact h.trans (by decide)
  · have h := (hdeny [ToolCall.mk (ToolFunction.mk "delete_file" []),
        ToolCall.mk (ToolFunction.mk "read_file" []),
        ToolCall.mk (ToolFunction.mk "unknown_tool" [])] 0 []).1
    exact h.trans (by decide)

end Smollm
